import Mathlib

/-!
Verification of the ai-translate watcher (src/index.ts).

Text is modeled as a list of characters. Each definition below is a direct
shallow embedding of the corresponding function in src/index.ts, keeping the
source name where Lean allows it. External effects (the Anthropic client
call, readFileSync, writeFileSync, Date.now) are passed in as explicit
oracle parameters; terminal presentation (chalk color codes, the spinner)
is omitted from the embedded strings.
-/

/-- Text content, as a list of characters. -/
abbrev Txt := List Char

/-- Whitespace as removed by the JavaScript String.trim method (ASCII part). -/
def jsWhitespace (c : Char) : Bool :=
  c == ' ' || c == '\t' || c == '\n' || c == '\r' || c == '\x0b' || c == '\x0c'

/-- Embedding of the JavaScript text.trim() call: remove leading and trailing
whitespace. -/
def jsTrim (t : Txt) : Txt :=
  ((t.dropWhile jsWhitespace).reverse.dropWhile jsWhitespace).reverse

/-- A character matched by the regex class [\w-] used for the language tag in
stripMarkdownCodeBlocks (ASCII letters, digits, underscore, hyphen). -/
def wordChar (c : Char) : Bool :=
  c.isAlpha || c.isDigit || c == '_' || c == '-'

/-- Three backtick characters: a code fence marker. -/
def fence : Txt := ['\x60', '\x60', '\x60']

/-- Matcher for the anchored regex in stripMarkdownCodeBlocks (src/index.ts
line 142). The trimmed text matches exactly when it starts with a fence,
followed by a maximal run of tag characters, then a newline, and ends with a
newline followed by a fence; the capture group is everything in between.
Returns the capture group on a match, none otherwise. -/
def fenceInner (t : Txt) : Option Txt :=
  if t.take 3 = fence then
    match (t.drop 3).dropWhile wordChar with
    | [] => none
    | c :: body =>
      if c = '\n' then
        if body.drop (body.length - 4) = '\n' :: fence then
          some (body.take (body.length - 4))
        else none
      else none
  else none

/-- Embedding of stripMarkdownCodeBlocks (src/index.ts lines 140 to 150): if
the trimmed text is one whole fenced code block, return the inner content,
otherwise return the original text unchanged. -/
def stripMarkdownCodeBlocks (text : Txt) : Txt :=
  match fenceInner (jsTrim text) with
  | some inner => inner
  | none => text

/-- Statement of the sanitizer contract in the words of the specification: the
whole text is an opening fence with an optional language tag on its own line,
then the inner content, then a closing fence on its own line, nothing outside
the fences. -/
def SpecSingleFence (t inner : Txt) : Prop :=
  ∃ tag : Txt, (∀ c ∈ tag, wordChar c = true) ∧
    t = fence ++ tag ++ '\n' :: (inner ++ '\n' :: fence)

/-- Embedding of the node path.basename call: the last path segment, with
trailing slashes ignored. -/
def basename (p : Txt) : Txt :=
  (((p.reverse).dropWhile (fun c => c == '/')).takeWhile (fun c => c != '/')).reverse

/-- The MODELS table of src/index.ts lines 11 to 17: model option names and
the identifiers they select. -/
def MODELS : List (Txt × Txt) :=
  [("sonnet-4.5".toList, "claude-sonnet-4-5-20250929".toList),
   ("haiku-4.5".toList, "claude-haiku-4-5-20251001".toList),
   ("haiku-3.5".toList, "claude-3-5-haiku-20241022".toList),
   ("opus-4.1".toList, "claude-opus-4-1-20250805".toList),
   ("opus-4".toList, "claude-opus-4-20250514".toList)]

/-- Membership test for the MODELS table, embedding the falsiness check on
MODELS[modelName] in parseArgs. -/
def isModelName (m : Txt) : Bool :=
  MODELS.any (fun p => p.1 == m)

/-- Identifier selected by a model option name, embedding MODELS[options.model]. -/
def modelIdOf (name : Txt) : Txt :=
  ((MODELS.find? (fun p => p.1 == name)).map Prod.snd).getD []

/-- The DEFAULT_MAX_TOKENS constant of src/index.ts line 21. -/
def DEFAULT_MAX_TOKENS : Nat := 4096

/-- The PROCESSING_DELAY_MS constant of src/index.ts line 22. -/
def PROCESSING_DELAY_MS : Nat := 100

/-- The Options record filled by parseArgs. -/
structure Options where
  model : Txt
  help : Bool
  version : Bool
deriving DecidableEq, Repr

/-- Initial options of parseArgs: default model sonnet-4.5, no flags. -/
def defaultOptions : Options :=
  { model := "sonnet-4.5".toList, help := false, version := false }

/-- Test for arg.startsWith of two hyphens. -/
def startsWithDashDash (arg : Txt) : Bool :=
  arg.take 2 == "--".toList

/-- Embedding of the loop of parseArgs (src/index.ts lines 86 to 107). The
accumulator holds the options so far and the files collected so far, in
order. A bad or missing value after a model flag is the process.exit(1) call
inside the loop, embedded as an error result. -/
def parseArgsLoop : List Txt → Options → List Txt → Except Unit (Options × List Txt)
  | [], opts, files => Except.ok (opts, files)
  | arg :: rest, opts, files =>
    if arg = "--help".toList ∨ arg = "-h".toList then
      parseArgsLoop rest { opts with help := true } files
    else if arg = "--version".toList ∨ arg = "-v".toList then
      parseArgsLoop rest { opts with version := true } files
    else if arg = "--model".toList then
      match rest with
      | [] => Except.error ()
      | m :: rest2 =>
        if isModelName m then
          parseArgsLoop rest2 { opts with model := m } files
        else Except.error ()
    else if startsWithDashDash arg then
      parseArgsLoop rest opts files
    else
      parseArgsLoop rest opts (files ++ [arg])

/-- Embedding of parseArgs (src/index.ts lines 75 to 110). -/
def parseArgs (args : List Txt) : Except Unit (Options × List Txt) :=
  parseArgsLoop args defaultOptions []

/-- Embedding of getApiKey (src/index.ts lines 112 to 125). The raw read of
the key file is an oracle: a read failure is the process.exit(1) path,
embedded as an error; on success the key text is trimmed. -/
def getApiKey (rawKey : Except Unit Txt) : Except Unit Txt :=
  match rawKey with
  | Except.error e => Except.error e
  | Except.ok s => Except.ok (jsTrim s)

/-- The FileState record of src/index.ts lines 132 to 136: one watched file
snapshot. -/
structure FileState where
  path : Txt
  content : Txt
  lastModified : Nat
deriving DecidableEq, Repr

/-- One element of the message.content array of the client response. -/
inductive ContentBlock where
  | text (s : Txt)
  | other
deriving DecidableEq, Repr

/-- Outcome of the client.messages.create call: a response with content
blocks, or a thrown error. -/
inductive ClientResult where
  | ok (content : List ContentBlock)
  | err
deriving DecidableEq, Repr

/-- The single request submitted to the client by translateFile. -/
structure Request where
  model : Txt
  max_tokens : Nat
  prompt : Txt
deriving DecidableEq, Repr

/-- The prompt template of src/index.ts lines 164 to 176, used when the
target has content. -/
def promptWithTarget (sourceName targetName sourceContent targetContent : Txt) : Txt :=
  "You are a bi-directional file translator. Your task is to convert the content from \"".toList
  ++ sourceName
  ++ "\" to match the style/language/format of \"".toList
  ++ targetName
  ++ "\".\n\nSource file (".toList
  ++ sourceName
  ++ "):\n```\n".toList
  ++ sourceContent
  ++ "\n```\n\nCurrent target file (".toList
  ++ targetName
  ++ "):\n```\n".toList
  ++ targetContent
  ++ "\n```\n\nPlease convert the source file content to match the target file\x27s style/language/format. Make minimal changes - only what\x27s necessary for the conversion. Respond with ONLY the converted content, no explanations or markdown code blocks.".toList

/-- The prompt template of src/index.ts lines 177 to 184, used when the
target is empty. -/
def promptEmptyTarget (sourceName targetName sourceContent : Txt) : Txt :=
  "You are a bi-directional file translator. Your task is to convert the content from \"".toList
  ++ sourceName
  ++ "\" to match the style/language/format suggested by \"".toList
  ++ targetName
  ++ "\".\n\nSource file (".toList
  ++ sourceName
  ++ "):\n```\n".toList
  ++ sourceContent
  ++ "\n```\n\nThe target file \"".toList
  ++ targetName
  ++ "\" is currently empty. Based on the file names and extensions, infer the appropriate style/language/format for the conversion. Respond with ONLY the converted content, no explanations or markdown code blocks.".toList

/-- Prompt construction of translateFile: pick the template by whether the
trimmed target content is non-empty (src/index.ts lines 161 to 184). -/
def buildPrompt (sourceFile targetFile : FileState) : Txt :=
  if (jsTrim targetFile.content).length > 0 then
    promptWithTarget (basename sourceFile.path) (basename targetFile.path)
      sourceFile.content targetFile.content
  else
    promptEmptyTarget (basename sourceFile.path) (basename targetFile.path)
      sourceFile.content

/-- The request built by translateFile at src/index.ts lines 186 to 190. -/
def buildRequest (sourceFile targetFile : FileState) (modelId : Txt) : Request :=
  { model := modelId, max_tokens := DEFAULT_MAX_TOKENS,
    prompt := buildPrompt sourceFile targetFile }

/-- Embedding of translateFile (src/index.ts lines 152 to 198). The client is
an oracle from the request to its result. The code reads message.content[0]
and succeeds only when that first block is text typed; a thrown client error,
an empty content array (content[0] is undefined) and a non-text first block
are all errors of this step. -/
def translateFile (sourceFile targetFile : FileState) (modelId : Txt)
    (respond : Request → ClientResult) : Except Unit Txt :=
  match respond (buildRequest sourceFile targetFile modelId) with
  | ClientResult.err => Except.error ()
  | ClientResult.ok blocks =>
    match blocks with
    | ContentBlock.text s :: _ => Except.ok (stripMarkdownCodeBlocks s)
    | _ => Except.error ()

/-- Result of performTranslation: the returned flag, the target snapshot and
the target on-disk content after the attempt, and the failure message shown
by the spinner, if any. -/
structure TransResult where
  success : Bool
  target : FileState
  targetDisk : Txt
  errorMessage : Option Txt
deriving DecidableEq, Repr

/-- Embedding of performTranslation (src/index.ts lines 200 to 233). In the
source, the target snapshot fields are assigned BEFORE writeFileSync runs, so
a write failure leaves the snapshot already updated while the disk content
stays as it was; the catch block reports the failure and returns false.
The writeOk oracle tells whether writeFileSync succeeds, and now stands for
Date.now(). -/
def performTranslation (sourceFile targetFile : FileState) (targetDisk : Txt)
    (modelId : Txt) (respond : Request → ClientResult) (now : Nat) (writeOk : Bool) :
    TransResult :=
  match translateFile sourceFile targetFile modelId respond with
  | Except.error _ =>
      { success := false, target := targetFile, targetDisk := targetDisk,
        errorMessage := some "Translation failed".toList }
  | Except.ok translated =>
      if writeOk then
        { success := true,
          target := { targetFile with content := translated, lastModified := now },
          targetDisk := translated, errorMessage := none }
      else
        { success := false,
          target := { targetFile with content := translated, lastModified := now },
          targetDisk := targetDisk,
          errorMessage := some "Translation failed".toList }

/-- The has-content test of src/index.ts lines 289 to 290: trimmed text
non-empty. -/
def hasContent (t : Txt) : Bool :=
  decide ((jsTrim t).length > 0)

/-- The auto-translating notice printed by the startup sync (src/index.ts
lines 299 to 301 and 310 to 312), without the color codes. -/
def autoTranslateLog (targetFile sourceFile : FileState) : Txt :=
  "→ ".toList ++ basename targetFile.path
  ++ " is empty, auto-translating from ".toList ++ basename sourceFile.path

/-- The translation steps run by the startup block of main (src/index.ts
lines 289 to 314), each as a source snapshot, target snapshot and log line:
one step when exactly one file has content, none otherwise. -/
def bootstrapTranslations (file1 file2 : FileState) :
    List (FileState × FileState × Txt) :=
  if hasContent file1.content && !hasContent file2.content then
    [(file1, file2, autoTranslateLog file2 file1)]
  else if hasContent file2.content && !hasContent file1.content then
    [(file2, file1, autoTranslateLog file1 file2)]
  else []

/-- Configuration assembled by main once every startup check has passed. -/
structure RunConfig where
  modelId : Txt
  file1Path : Txt
  file2Path : Txt
  apiKey : Txt
deriving DecidableEq, Repr

/-- Outcome of the startup part of main: an early process exit with a code,
or the watcher configuration it proceeds with. -/
inductive MainOutcome where
  | exited (code : Nat)
  | started (cfg : RunConfig)
deriving DecidableEq, Repr

/-- Embedding of the startup part of main (src/index.ts lines 235 to 267):
parse arguments (a bad model value already exits there), print help or
version and exit 0, exit 1 unless exactly two files were collected, exit 1
if either file is missing, exit 1 if the key file cannot be read, otherwise
proceed. fileExists embeds existsSync and rawKey the key file read. -/
def mainStartup (args : List Txt) (fileExists : Txt → Bool)
    (rawKey : Except Unit Txt) : MainOutcome :=
  match parseArgs args with
  | Except.error _ => MainOutcome.exited 1
  | Except.ok (opts, files) =>
    if opts.help then MainOutcome.exited 0
    else if opts.version then MainOutcome.exited 0
    else
      match files with
      | [file1Path, file2Path] =>
        if fileExists file1Path = false then MainOutcome.exited 1
        else if fileExists file2Path = false then MainOutcome.exited 1
        else
          match getApiKey rawKey with
          | Except.error _ => MainOutcome.exited 1
          | Except.ok key =>
              MainOutcome.started
                { modelId := modelIdOf opts.model, file1Path := file1Path,
                  file2Path := file2Path, apiKey := key }
      | _ => MainOutcome.exited 1

/-- State of the change-propagation loop: the isProcessing gate, both
snapshots, both on-disk contents, and the pending setTimeout delay that will
clear the gate, if one is scheduled. -/
structure LoopState where
  processing : Bool
  file1 : FileState
  file2 : FileState
  disk1 : Txt
  disk2 : Txt
  timer : Option Nat
deriving DecidableEq, Repr

/-- Embedding of handleFileChange (src/index.ts lines 316 to 352) for one
change notification; which selects the changed file (false for file1, true
for file2). Returns the new state and whether a translation step ran. If the
gate is set the notification is dropped with nothing else done. Otherwise the
gate is set, the changed path is re-read (readOk embeds a readFileSync
failure, caught by the catch block); identical content clears the gate and
stops; otherwise the changed snapshot is updated and performTranslation runs
against the other file. The finally block always schedules the gate to clear
after PROCESSING_DELAY_MS. -/
def handleFileChange (s : LoopState) (which readOk : Bool) (modelId : Txt)
    (respond : Request → ClientResult) (now : Nat) (writeOk : Bool) :
    LoopState × Bool :=
  if s.processing then (s, false)
  else if readOk = false then
    ({ s with processing := true, timer := some PROCESSING_DELAY_MS }, false)
  else if which then
    if s.disk2 = s.file2.content then
      ({ s with processing := false, timer := some PROCESSING_DELAY_MS }, false)
    else
      ({ s with
          processing := true,
          file2 := { s.file2 with content := s.disk2, lastModified := now },
          file1 := (performTranslation { s.file2 with content := s.disk2, lastModified := now }
                     s.file1 s.disk1 modelId respond now writeOk).target,
          disk1 := (performTranslation { s.file2 with content := s.disk2, lastModified := now }
                     s.file1 s.disk1 modelId respond now writeOk).targetDisk,
          timer := some PROCESSING_DELAY_MS }, true)
  else
    if s.disk1 = s.file1.content then
      ({ s with processing := false, timer := some PROCESSING_DELAY_MS }, false)
    else
      ({ s with
          processing := true,
          file1 := { s.file1 with content := s.disk1, lastModified := now },
          file2 := (performTranslation { s.file1 with content := s.disk1, lastModified := now }
                     s.file2 s.disk2 modelId respond now writeOk).target,
          disk2 := (performTranslation { s.file1 with content := s.disk1, lastModified := now }
                     s.file2 s.disk2 modelId respond now writeOk).targetDisk,
          timer := some PROCESSING_DELAY_MS }, true)

/-- Firing of the scheduled setTimeout callback: the gate clears. -/
def fireTimer (s : LoopState) : LoopState :=
  { s with processing := false, timer := none }

/-- The text needle occurs contiguously inside the haystack. -/
def Occurs (needle hay : Txt) : Prop :=
  ∃ u v, hay = u ++ needle ++ v

/-- Decidable equality for Except results, used to evaluate the embedded
functions on concrete inputs. -/
instance exceptDecEq {ε α : Type} [DecidableEq ε] [DecidableEq α] :
    DecidableEq (Except ε α)
  | Except.error e1, Except.error e2 =>
    if h : e1 = e2 then isTrue (congrArg Except.error h)
    else isFalse (fun hc => h (Except.error.inj hc))
  | Except.error _, Except.ok _ => isFalse (fun hc => Except.noConfusion hc)
  | Except.ok _, Except.error _ => isFalse (fun hc => Except.noConfusion hc)
  | Except.ok a1, Except.ok a2 =>
    if h : a1 = a2 then isTrue (congrArg Except.ok h)
    else isFalse (fun hc => h (Except.ok.inj hc))

/-! Helper lemmas. -/

/-- Dropping while a predicate holds walks past a block where it holds
everywhere and stops at the first failing character. -/
theorem dropWhile_append_stop {p : Char → Bool} (l : List Char) (c : Char) (r : List Char)
    (hl : ∀ x ∈ l, p x = true) (hc : p c = false) :
    (l ++ c :: r).dropWhile p = c :: r := by
  induction l with
  | nil => simp [List.dropWhile_cons, hc]
  | cons a l ih =>
    simp only [List.cons_append, List.dropWhile_cons, hl a (by simp)]
    exact ih (fun x hx => hl x (by simp [hx]))

/-- The regex matcher of stripMarkdownCodeBlocks returns some inner exactly
when the text decomposes as one whole fenced code block around that inner
content, in the sense of SpecSingleFence. -/
theorem fenceInner_eq_some_iff (t inner : Txt) :
    fenceInner t = some inner ↔ SpecSingleFence t inner := by
  constructor
  · intro h
    unfold fenceInner at h
    split at h
    case isTrue h3 =>
      split at h
      case h_1 => exact absurd h (by simp)
      case h_2 c body hd =>
        split at h
        case isTrue hc =>
          split at h
          case isTrue h4 =>
            injection h with hinner
            refine ⟨(t.drop 3).takeWhile wordChar,
              fun x hx => List.mem_takeWhile_imp hx, ?_⟩
            subst hc
            have hbody : inner ++ '\n' :: fence = body := by
              rw [← hinner, ← h4]
              exact List.take_append_drop _ body
            calc t = t.take 3 ++ t.drop 3 := (List.take_append_drop 3 t).symm
              _ = fence ++ t.drop 3 := by rw [h3]
              _ = fence ++ ((t.drop 3).takeWhile wordChar ++ (t.drop 3).dropWhile wordChar) := by
                    rw [List.takeWhile_append_dropWhile]
              _ = fence ++ ((t.drop 3).takeWhile wordChar ++ ('\n' :: body)) := by rw [hd]
              _ = fence ++ ((t.drop 3).takeWhile wordChar
                    ++ ('\n' :: (inner ++ '\n' :: fence))) := by rw [hbody]
              _ = fence ++ (t.drop 3).takeWhile wordChar
                    ++ '\n' :: (inner ++ '\n' :: fence) := by rw [List.append_assoc]
          case isFalse => exact absurd h (by simp)
        case isFalse => exact absurd h (by simp)
    case isFalse => exact absurd h (by simp)
  · rintro ⟨tag, htag, ht⟩
    subst ht
    unfold fenceInner
    rw [List.append_assoc]
    have h1 : List.take 3 (fence ++ (tag ++ '\n' :: (inner ++ '\n' :: fence))) = fence :=
      List.take_left' rfl
    have h2 : List.drop 3 (fence ++ (tag ++ '\n' :: (inner ++ '\n' :: fence)))
        = tag ++ '\n' :: (inner ++ '\n' :: fence) := List.drop_left' rfl
    have h3 : List.dropWhile wordChar (tag ++ '\n' :: (inner ++ '\n' :: fence))
        = '\n' :: (inner ++ '\n' :: fence) := dropWhile_append_stop tag '\n' _ htag (by decide)
    have h4 : List.length inner + (List.length fence + 1) - 4 = List.length inner := by
      simp [fence]
    have h5 : List.drop inner.length (inner ++ '\n' :: fence) = '\n' :: fence :=
      List.drop_left' rfl
    have h6 : List.take inner.length (inner ++ '\n' :: fence) = inner := List.take_left' rfl
    simp [h1, h2, h3, h4, h5, h6]

/-- A closed gate drops any notification without touching the state. -/
theorem handleFileChange_gate_closed (s : LoopState) (w r : Bool) (m : Txt)
    (re : Request → ClientResult) (n : Nat) (wr : Bool) (h : s.processing = true) :
    handleFileChange s w r m re n wr = (s, false) := by
  simp [handleFileChange, h]

/-- The auto-translating notice always carries the auto-translating marker. -/
theorem autoTranslateLog_occurs (t s : FileState) :
    Occurs "auto-translating".toList (autoTranslateLog t s) := by
  refine ⟨"→ ".toList ++ basename t.path ++ " is empty, ".toList,
    " from ".toList ++ basename s.path, ?_⟩
  have hsplit : " is empty, auto-translating from ".toList
      = " is empty, ".toList ++ ("auto-translating".toList ++ " from ".toList) := by decide
  simp [autoTranslateLog, hsplit, List.append_assoc]

/-! Claim theorems. -/

/-- Claim C1, amended: when the client call throws or the response shape is
rejected, performTranslation reports the failure and leaves both the target
snapshot and the target on-disk content exactly as they were; when the
filesystem write fails, the on-disk content is unchanged and the failure is
reported, but the target snapshot has already been updated to the translated
text, because the source assigns the snapshot fields before calling
writeFileSync. In every case the step returns false instead of raising. -/
theorem performTranslation_failure_paths
    (sourceFile targetFile : FileState) (targetDisk : Txt) (modelId : Txt)
    (respond : Request → ClientResult) (now : Nat) (writeOk : Bool) :
    (translateFile sourceFile targetFile modelId respond = Except.error () →
      performTranslation sourceFile targetFile targetDisk modelId respond now writeOk
        = { success := false, target := targetFile, targetDisk := targetDisk,
            errorMessage := some "Translation failed".toList })
    ∧ (∀ tr, translateFile sourceFile targetFile modelId respond = Except.ok tr →
      performTranslation sourceFile targetFile targetDisk modelId respond now false
        = { success := false,
            target := { targetFile with content := tr, lastModified := now },
            targetDisk := targetDisk,
            errorMessage := some "Translation failed".toList }) := by
  constructor
  · intro h
    simp [performTranslation, h]
  · intro tr h
    simp [performTranslation, h]

/-- Claim C1 witness: a throwing client call at a concrete input leaves the
target snapshot and disk untouched and reports failure. -/
theorem performTranslation_failure_paths_witness :
    performTranslation ⟨"a.md".toList, "src".toList, 0⟩ ⟨"b.md".toList, "tgt".toList, 0⟩
      "tgt".toList "m".toList (fun _ => ClientResult.err) 7 true
      = { success := false, target := ⟨"b.md".toList, "tgt".toList, 0⟩,
          targetDisk := "tgt".toList, errorMessage := some "Translation failed".toList } :=
  (performTranslation_failure_paths ⟨"a.md".toList, "src".toList, 0⟩
    ⟨"b.md".toList, "tgt".toList, 0⟩ "tgt".toList "m".toList
    (fun _ => ClientResult.err) 7 true).1 (by decide)

/-- Claim C1 counterexample: with a successful client response and a failing
write, the step reports failure and the on-disk content is untouched, yet the
in-memory target snapshot content after the attempt differs from what the
snapshot held before, refuting the claim that every failing step leaves the
snapshot content exactly as it was. -/
theorem performTranslation_write_failure_counterexample :
    (performTranslation ⟨"a.md".toList, "src".toList, 0⟩ ⟨"b.md".toList, "tgt".toList, 0⟩
      "tgt".toList "m".toList (fun _ => ClientResult.ok [ContentBlock.text "NEW".toList])
      7 false).success = false
    ∧ (performTranslation ⟨"a.md".toList, "src".toList, 0⟩ ⟨"b.md".toList, "tgt".toList, 0⟩
      "tgt".toList "m".toList (fun _ => ClientResult.ok [ContentBlock.text "NEW".toList])
      7 false).targetDisk = "tgt".toList
    ∧ (performTranslation ⟨"a.md".toList, "src".toList, 0⟩ ⟨"b.md".toList, "tgt".toList, 0⟩
      "tgt".toList "m".toList (fun _ => ClientResult.ok [ContentBlock.text "NEW".toList])
      7 false).target.content ≠ "tgt".toList := by decide

/-- Claim C2: starting from an idle gate, if a change notification runs a
translation step then the gate is still set when it finishes, and any second
notification arriving while the gate is set, for either watched file and
whatever its oracles would return, is dropped entirely: the state is
unchanged and no translation step runs, so exactly one translation step
executes for the overlapping pair. -/
theorem handleFileChange_overlap_single_step
    (s : LoopState) (w1 r1 : Bool) (m1 : Txt) (re1 : Request → ClientResult)
    (n1 : Nat) (wr1 : Bool) (w2 r2 : Bool) (m2 : Txt) (re2 : Request → ClientResult)
    (n2 : Nat) (wr2 : Bool)
    (hIdle : s.processing = false)
    (hRan : (handleFileChange s w1 r1 m1 re1 n1 wr1).2 = true) :
    (handleFileChange s w1 r1 m1 re1 n1 wr1).1.processing = true
    ∧ handleFileChange (handleFileChange s w1 r1 m1 re1 n1 wr1).1 w2 r2 m2 re2 n2 wr2
        = ((handleFileChange s w1 r1 m1 re1 n1 wr1).1, false) := by
  have hp : (handleFileChange s w1 r1 m1 re1 n1 wr1).1.processing = true := by
    unfold handleFileChange at hRan ⊢
    split_ifs at hRan ⊢ <;> simp_all
  exact ⟨hp, handleFileChange_gate_closed _ w2 r2 m2 re2 n2 wr2 hp⟩

/-- Claim C2 witness: a concrete overlapping pair in which the first
notification translates file1 and the second, concerning file2, is dropped
with the state unchanged. -/
theorem handleFileChange_overlap_single_step_witness :
    (handleFileChange ⟨false, ⟨"a".toList, "x".toList, 0⟩, ⟨"b".toList, "y".toList, 0⟩,
        "z".toList, "y".toList, none⟩ false true "m".toList
        (fun _ => ClientResult.ok [ContentBlock.text "T".toList]) 5 true).1.processing = true
    ∧ handleFileChange
        (handleFileChange ⟨false, ⟨"a".toList, "x".toList, 0⟩, ⟨"b".toList, "y".toList, 0⟩,
          "z".toList, "y".toList, none⟩ false true "m".toList
          (fun _ => ClientResult.ok [ContentBlock.text "T".toList]) 5 true).1
        true true "m".toList (fun _ => ClientResult.err) 9 false
      = ((handleFileChange ⟨false, ⟨"a".toList, "x".toList, 0⟩, ⟨"b".toList, "y".toList, 0⟩,
          "z".toList, "y".toList, none⟩ false true "m".toList
          (fun _ => ClientResult.ok [ContentBlock.text "T".toList]) 5 true).1, false) :=
  handleFileChange_overlap_single_step
    ⟨false, ⟨"a".toList, "x".toList, 0⟩, ⟨"b".toList, "y".toList, 0⟩,
      "z".toList, "y".toList, none⟩ false true "m".toList
    (fun _ => ClientResult.ok [ContentBlock.text "T".toList]) 5 true
    true true "m".toList (fun _ => ClientResult.err) 9 false (by decide) (by decide)

/-- Claim C3: when a notification passes the gate and the re-read disk
content is byte-identical to the changed snapshot content, no translation
step runs, neither snapshot is modified, and the gate returns to idle, with
only the clearing timer scheduled; the stored modification times and the
clock value play no part. -/
theorem handleFileChange_identical_content_skips
    (s : LoopState) (which : Bool) (modelId : Txt) (respond : Request → ClientResult)
    (now : Nat) (writeOk : Bool)
    (hIdle : s.processing = false)
    (hSame : (if which then s.disk2 else s.disk1)
        = (if which then s.file2 else s.file1).content) :
    handleFileChange s which true modelId respond now writeOk
      = ({ s with processing := false, timer := some PROCESSING_DELAY_MS }, false) := by
  cases which <;> simp_all [handleFileChange]

/-- Claim C3 witness: a concrete idle state whose disk content equals the
stored snapshot content is skipped and returned to idle. -/
theorem handleFileChange_identical_content_skips_witness :
    handleFileChange ⟨false, ⟨"a".toList, "x".toList, 3⟩, ⟨"b".toList, "y".toList, 4⟩,
        "x".toList, "y".toList, none⟩ false true "m".toList
        (fun _ => ClientResult.ok [ContentBlock.text "T".toList]) 5 true
      = (⟨false, ⟨"a".toList, "x".toList, 3⟩, ⟨"b".toList, "y".toList, 4⟩,
          "x".toList, "y".toList, some PROCESSING_DELAY_MS⟩, false) :=
  handleFileChange_identical_content_skips
    ⟨false, ⟨"a".toList, "x".toList, 3⟩, ⟨"b".toList, "y".toList, 4⟩,
      "x".toList, "y".toList, none⟩ false "m".toList
    (fun _ => ClientResult.ok [ContentBlock.text "T".toList]) 5 true
    (by decide) (by decide)

/-- Claim C4: the output sanitizer returns exactly the inner content whenever
the trimmed text is one whole fenced code block in the sense of
SpecSingleFence, and returns the input unchanged whenever no such
decomposition exists, trailing prose after the closing fence included. -/
theorem stripMarkdownCodeBlocks_spec (text : Txt) :
    (∀ inner, SpecSingleFence (jsTrim text) inner →
      stripMarkdownCodeBlocks text = inner)
    ∧ ((¬ ∃ inner, SpecSingleFence (jsTrim text) inner) →
      stripMarkdownCodeBlocks text = text) := by
  constructor
  · intro inner h
    have hm := (fenceInner_eq_some_iff (jsTrim text) inner).2 h
    simp [stripMarkdownCodeBlocks, hm]
  · intro hno
    cases hf : fenceInner (jsTrim text) with
    | none => simp [stripMarkdownCodeBlocks, hf]
    | some i => exact absurd ⟨i, (fenceInner_eq_some_iff (jsTrim text) i).1 hf⟩ hno

/-- Claim C4 witness: a concrete fully fenced text sanitizes to its body, and
the same text with trailing prose after the closing fence is returned
unchanged. -/
theorem stripMarkdownCodeBlocks_spec_witness :
    stripMarkdownCodeBlocks "```md\nhello\n```".toList = "hello".toList
    ∧ stripMarkdownCodeBlocks "```md\nhello\n``` see above".toList
        = "```md\nhello\n``` see above".toList := by
  constructor
  · exact (stripMarkdownCodeBlocks_spec "```md\nhello\n```".toList).1 "hello".toList
      ⟨"md".toList, by decide, by decide⟩
  · refine (stripMarkdownCodeBlocks_spec "```md\nhello\n``` see above".toList).2 ?_
    rintro ⟨i, hi⟩
    have h := (fenceInner_eq_some_iff (jsTrim "```md\nhello\n``` see above".toList) i).2 hi
    have hn : fenceInner (jsTrim "```md\nhello\n``` see above".toList) = none := by decide
    rw [hn] at h
    exact Option.noConfusion h

/-- An occurrence in the left part of a concatenation survives appending. -/
theorem Occurs.inner_left {n a : Txt} (h : Occurs n a) (b : Txt) : Occurs n (a ++ b) := by
  rcases h with ⟨u, v, rfl⟩
  exact ⟨u, v ++ b, by simp⟩

/-- An occurrence in the right part of a concatenation survives prepending. -/
theorem Occurs.inner_right {n b : Txt} (a : Txt) (h : Occurs n b) : Occurs n (a ++ b) := by
  rcases h with ⟨u, v, rfl⟩
  exact ⟨a ++ u, v, by simp⟩

/-- Any text occurs in itself. -/
theorem Occurs.self (n : Txt) : Occurs n n := ⟨[], [], by simp⟩

set_option maxRecDepth 10000 in
/-- Occurrences inside the prompt built when the target has content: both
base names, both contents, and the minimal-changes instruction. -/
theorem promptWithTarget_occurs (sn tn sc tc : Txt) :
    Occurs sn (promptWithTarget sn tn sc tc)
    ∧ Occurs tn (promptWithTarget sn tn sc tc)
    ∧ Occurs sc (promptWithTarget sn tn sc tc)
    ∧ Occurs tc (promptWithTarget sn tn sc tc)
    ∧ Occurs "Make minimal changes - only what\x27s necessary for the conversion.".toList
        (promptWithTarget sn tn sc tc) := by
  unfold promptWithTarget
  refine ⟨?_, ?_, ?_, ?_, ?_⟩
  · exact (Occurs.self sn).inner_right _ |>.inner_left _ |>.inner_left _ |>.inner_left _
      |>.inner_left _ |>.inner_left _ |>.inner_left _ |>.inner_left _ |>.inner_left _
      |>.inner_left _ |>.inner_left _ |>.inner_left _
  · exact (Occurs.self tn).inner_right _ |>.inner_left _ |>.inner_left _ |>.inner_left _
  · exact (Occurs.self sc).inner_right _ |>.inner_left _ |>.inner_left _ |>.inner_left _
      |>.inner_left _ |>.inner_left _
  · exact (Occurs.self tc).inner_right _ |>.inner_left _
  · have hocc : Occurs
        "Make minimal changes - only what\x27s necessary for the conversion.".toList
        "\n```\n\nPlease convert the source file content to match the target file\x27s style/language/format. Make minimal changes - only what\x27s necessary for the conversion. Respond with ONLY the converted content, no explanations or markdown code blocks.".toList :=
      ⟨"\n```\n\nPlease convert the source file content to match the target file\x27s style/language/format. ".toList,
       " Respond with ONLY the converted content, no explanations or markdown code blocks.".toList,
       by decide⟩
    exact hocc.inner_right _

set_option maxRecDepth 10000 in
/-- Occurrences inside the prompt built when the target is empty: both base
names, the source content, and the infer-from-the-file-names instruction. -/
theorem promptEmptyTarget_occurs (sn tn sc : Txt) :
    Occurs sn (promptEmptyTarget sn tn sc)
    ∧ Occurs tn (promptEmptyTarget sn tn sc)
    ∧ Occurs sc (promptEmptyTarget sn tn sc)
    ∧ Occurs "Based on the file names and extensions, infer the appropriate style/language/format for the conversion.".toList
        (promptEmptyTarget sn tn sc) := by
  unfold promptEmptyTarget
  refine ⟨?_, ?_, ?_, ?_⟩
  · exact (Occurs.self sn).inner_right _ |>.inner_left _ |>.inner_left _ |>.inner_left _
      |>.inner_left _ |>.inner_left _ |>.inner_left _ |>.inner_left _ |>.inner_left _
      |>.inner_left _
  · exact (Occurs.self tn).inner_right _ |>.inner_left _
  · exact (Occurs.self sc).inner_right _ |>.inner_left _ |>.inner_left _ |>.inner_left _
  · have hocc : Occurs
        "Based on the file names and extensions, infer the appropriate style/language/format for the conversion.".toList
        "\" is currently empty. Based on the file names and extensions, infer the appropriate style/language/format for the conversion. Respond with ONLY the converted content, no explanations or markdown code blocks.".toList :=
      ⟨"\" is currently empty. ".toList,
       " Respond with ONLY the converted content, no explanations or markdown code blocks.".toList,
       by decide⟩
    exact hocc.inner_right _

/-- Claim C5: with content defined as trimmed text being non-empty, the
startup sync runs exactly one translation, from the file with content to the
file without, whenever exactly one of the two has content, with a log line
carrying the auto-translating notice; when both have content or neither
does, it runs none. -/
theorem bootstrap_auto_sync (file1 file2 : FileState) :
    (hasContent file1.content = true → hasContent file2.content = false →
      bootstrapTranslations file1 file2 = [(file1, file2, autoTranslateLog file2 file1)]
      ∧ Occurs "auto-translating".toList (autoTranslateLog file2 file1))
    ∧ (hasContent file2.content = true → hasContent file1.content = false →
      bootstrapTranslations file1 file2 = [(file2, file1, autoTranslateLog file1 file2)]
      ∧ Occurs "auto-translating".toList (autoTranslateLog file1 file2))
    ∧ (hasContent file1.content = hasContent file2.content →
      bootstrapTranslations file1 file2 = []) := by
  refine ⟨?_, ?_, ?_⟩
  · intro h1 h2
    exact ⟨by simp [bootstrapTranslations, h1, h2], autoTranslateLog_occurs file2 file1⟩
  · intro h1 h2
    exact ⟨by simp [bootstrapTranslations, h1, h2], autoTranslateLog_occurs file1 file2⟩
  · intro heq
    cases hb : hasContent file1.content with
    | false =>
      rw [hb] at heq
      simp [bootstrapTranslations, hb, ← heq]
    | true =>
      rw [hb] at heq
      simp [bootstrapTranslations, hb, ← heq]

/-- Claim C5 witness: a concrete pair where only the first file has content
runs exactly the one startup translation with it as source, and a concrete
pair where both have content runs none. -/
theorem bootstrap_auto_sync_witness :
    bootstrapTranslations ⟨"a.md".toList, "hi".toList, 0⟩ ⟨"b.md".toList, " ".toList, 0⟩
      = [(⟨"a.md".toList, "hi".toList, 0⟩, ⟨"b.md".toList, " ".toList, 0⟩,
          autoTranslateLog ⟨"b.md".toList, " ".toList, 0⟩ ⟨"a.md".toList, "hi".toList, 0⟩)]
    ∧ bootstrapTranslations ⟨"a.md".toList, "hi".toList, 0⟩ ⟨"b.md".toList, "yo".toList, 0⟩
      = [] := by
  constructor
  · exact ((bootstrap_auto_sync ⟨"a.md".toList, "hi".toList, 0⟩
      ⟨"b.md".toList, " ".toList, 0⟩).1 (by decide) (by decide)).1
  · exact (bootstrap_auto_sync ⟨"a.md".toList, "hi".toList, 0⟩
      ⟨"b.md".toList, "yo".toList, 0⟩).2.2 (by decide)

/-- Claim C6, amended: the step succeeds exactly when the first response
segment exists and is text typed; further segments are never inspected. A
missing or non-text first segment, or a thrown call, is an error result of
this step, returned as a value rather than raised. -/
theorem translateFile_first_block_text_iff
    (sourceFile targetFile : FileState) (modelId : Txt)
    (respond : Request → ClientResult) :
    (∃ r, translateFile sourceFile targetFile modelId respond = Except.ok r)
    ↔ (∃ s rest, respond (buildRequest sourceFile targetFile modelId)
        = ClientResult.ok (ContentBlock.text s :: rest)) := by
  unfold translateFile
  cases hr : respond (buildRequest sourceFile targetFile modelId) with
  | err => simp
  | ok blocks =>
    cases blocks with
    | nil => simp
    | cons b rest =>
      cases b with
      | text s => simp
      | other => simp

/-- Claim C6 counterexample: a response whose content has a text first
segment followed by a second, non-text segment is not a single text segment,
yet the step succeeds, refuting the claim that it succeeds only on a single
text-typed segment. -/
theorem translateFile_two_blocks_counterexample :
    translateFile ⟨"a.md".toList, "src".toList, 0⟩ ⟨"b.md".toList, "tgt".toList, 0⟩
      "m".toList (fun _ => ClientResult.ok [ContentBlock.text "hello".toList, ContentBlock.other])
      = Except.ok "hello".toList
    ∧ ([ContentBlock.text "hello".toList, ContentBlock.other] : List ContentBlock).length ≠ 1 := by
  decide

/-- Claim C7: the single request built by the translation step carries the
4096-token output bound from the configuration constant, and its prompt
contains both base names and the full source content; when the trimmed
target content is non-empty the prompt also contains the full target content
and the minimal-changes instruction, and otherwise it contains the
instruction to infer the format from the file names. -/
theorem translateFile_request_contents
    (sourceFile targetFile : FileState) (modelId : Txt) :
    (buildRequest sourceFile targetFile modelId).max_tokens = DEFAULT_MAX_TOKENS
    ∧ DEFAULT_MAX_TOKENS = 4096
    ∧ Occurs (basename sourceFile.path) (buildRequest sourceFile targetFile modelId).prompt
    ∧ Occurs (basename targetFile.path) (buildRequest sourceFile targetFile modelId).prompt
    ∧ Occurs sourceFile.content (buildRequest sourceFile targetFile modelId).prompt
    ∧ ((jsTrim targetFile.content).length > 0 →
        Occurs targetFile.content (buildRequest sourceFile targetFile modelId).prompt
        ∧ Occurs "Make minimal changes - only what\x27s necessary for the conversion.".toList
            (buildRequest sourceFile targetFile modelId).prompt)
    ∧ (¬ (jsTrim targetFile.content).length > 0 →
        Occurs "Based on the file names and extensions, infer the appropriate style/language/format for the conversion.".toList
          (buildRequest sourceFile targetFile modelId).prompt) := by
  have hpr : (buildRequest sourceFile targetFile modelId).prompt
      = buildPrompt sourceFile targetFile := rfl
  by_cases h : (jsTrim targetFile.content).length > 0
  · have hbp : buildPrompt sourceFile targetFile
        = promptWithTarget (basename sourceFile.path) (basename targetFile.path)
            sourceFile.content targetFile.content := by
      unfold buildPrompt
      rw [if_pos h]
    obtain ⟨o1, o2, o3, o4, o5⟩ := promptWithTarget_occurs (basename sourceFile.path)
      (basename targetFile.path) sourceFile.content targetFile.content
    rw [hpr, hbp]
    exact ⟨rfl, rfl, o1, o2, o3, fun _ => ⟨o4, o5⟩, fun hc => absurd h hc⟩
  · have hbp : buildPrompt sourceFile targetFile
        = promptEmptyTarget (basename sourceFile.path) (basename targetFile.path)
            sourceFile.content := by
      unfold buildPrompt
      rw [if_neg h]
    obtain ⟨e1, e2, e3, e4⟩ := promptEmptyTarget_occurs (basename sourceFile.path)
      (basename targetFile.path) sourceFile.content
    rw [hpr, hbp]
    exact ⟨rfl, rfl, e1, e2, e3, fun hc => absurd hc h, fun _ => e4⟩

/-- Claim C7 witness: at a concrete snapshot pair with a non-empty target,
the request bound is 4096 and the prompt carries the minimal-changes
instruction. -/
theorem translateFile_request_contents_witness :
    (buildRequest ⟨"a.md".toList, "SRC".toList, 0⟩ ⟨"b.md".toList, "TGT".toList, 0⟩
      "m".toList).max_tokens = 4096
    ∧ Occurs "Make minimal changes - only what\x27s necessary for the conversion.".toList
        (buildRequest ⟨"a.md".toList, "SRC".toList, 0⟩ ⟨"b.md".toList, "TGT".toList, 0⟩
          "m".toList).prompt := by
  have h := translateFile_request_contents ⟨"a.md".toList, "SRC".toList, 0⟩
    ⟨"b.md".toList, "TGT".toList, 0⟩ "m".toList
  exact ⟨h.1.trans h.2.1, (h.2.2.2.2.2.1 (by decide)).2⟩

/-- Claim C8: whenever a notification passes the gate, whatever the read,
client and write oracles return, the handler schedules the gate-clearing
timer with the fixed 100 ms delay constant, and once that timer fires the
gate is open again; the handler is a total function of its oracles, so no
failure of the read, the call or the write escapes it. -/
theorem handleFileChange_always_rearms
    (s : LoopState) (which readOk : Bool) (modelId : Txt)
    (respond : Request → ClientResult) (now : Nat) (writeOk : Bool)
    (hIdle : s.processing = false) :
    (handleFileChange s which readOk modelId respond now writeOk).1.timer
        = some PROCESSING_DELAY_MS
    ∧ PROCESSING_DELAY_MS = 100
    ∧ (fireTimer (handleFileChange s which readOk modelId respond now writeOk).1).processing
        = false := by
  refine ⟨?_, rfl, rfl⟩
  unfold handleFileChange
  split_ifs <;> simp_all

/-- Claim C8 witness: at a concrete idle state with a failing client call and
a failing write, the timer is scheduled at 100 ms and firing it reopens the
gate. -/
theorem handleFileChange_always_rearms_witness :
    (handleFileChange ⟨false, ⟨"a".toList, "x".toList, 0⟩, ⟨"b".toList, "y".toList, 0⟩,
        "z".toList, "y".toList, none⟩ false true "m".toList
        (fun _ => ClientResult.err) 5 false).1.timer = some PROCESSING_DELAY_MS
    ∧ PROCESSING_DELAY_MS = 100
    ∧ (fireTimer (handleFileChange ⟨false, ⟨"a".toList, "x".toList, 0⟩,
        ⟨"b".toList, "y".toList, 0⟩, "z".toList, "y".toList, none⟩ false true "m".toList
        (fun _ => ClientResult.err) 5 false).1).processing = false :=
  handleFileChange_always_rearms
    ⟨false, ⟨"a".toList, "x".toList, 0⟩, ⟨"b".toList, "y".toList, 0⟩,
      "z".toList, "y".toList, none⟩ false true "m".toList
    (fun _ => ClientResult.err) 5 false (by decide)

/-- Claim C9, amended: a bad model value exits with code 1 unconditionally,
since it is detected while parsing; when neither the help flag nor the
version flag was collected, a file count other than two, a missing file, or
an unreadable key file each exit with code 1, before any snapshot is built
or translation attempted. When help or version is requested the process
instead exits with code 0 even if those error conditions hold. -/
theorem mainStartup_exit_codes
    (args : List Txt) (fileExists : Txt → Bool) (rawKey : Except Unit Txt) :
    (parseArgs args = Except.error () →
      mainStartup args fileExists rawKey = MainOutcome.exited 1)
    ∧ (∀ opts files, parseArgs args = Except.ok (opts, files) →
      opts.help = false → opts.version = false →
      (files.length ≠ 2 → mainStartup args fileExists rawKey = MainOutcome.exited 1)
      ∧ (∀ f1 f2, files = [f1, f2] →
          (fileExists f1 = false ∨ fileExists f2 = false) →
          mainStartup args fileExists rawKey = MainOutcome.exited 1)
      ∧ (∀ f1 f2, files = [f1, f2] → fileExists f1 = true → fileExists f2 = true →
          rawKey = Except.error () →
          mainStartup args fileExists rawKey = MainOutcome.exited 1)) := by
  constructor
  · intro h
    simp [mainStartup, h]
  · intro opts files hpa hh hv
    refine ⟨?_, ?_, ?_⟩
    · intro hlen
      unfold mainStartup
      rw [hpa]
      rcases files with _ | ⟨a, _ | ⟨b, _ | ⟨c, t⟩⟩⟩
      · simp [hh, hv]
      · simp [hh, hv]
      · exact absurd rfl hlen
      · simp [hh, hv]
    · rintro f1 f2 rfl hmiss
      unfold mainStartup
      rw [hpa]
      rcases hmiss with hm | hm
      · simp [hh, hv, hm]
      · cases hx : fileExists f1 <;> simp [hh, hv, hm, hx]
    · rintro f1 f2 rfl h1 h2 hkey
      unfold mainStartup
      rw [hpa]
      simp [hh, hv, h1, h2, hkey, getApiKey]

/-- Claim C9 witness: a startup with an unknown model value exits with
code 1. -/
theorem mainStartup_exit_codes_witness :
    mainStartup ["--model".toList, "bogus".toList, "a".toList, "b".toList]
      (fun _ => true) (Except.ok "k".toList) = MainOutcome.exited 1 :=
  (mainStartup_exit_codes ["--model".toList, "bogus".toList, "a".toList, "b".toList]
    (fun _ => true) (Except.ok "k".toList)).1 (by decide)

/-- Claim C9 counterexample: a startup invoked with only the help flag has an
argument count of zero files, no existing files and an unreadable key, yet
the process exits with code 0 after printing help, refuting the claim that
every startup with a wrong argument count exits with code 1. -/
theorem mainStartup_help_counterexample :
    parseArgs ["--help".toList]
      = Except.ok ({ model := "sonnet-4.5".toList, help := true, version := false }, [])
    ∧ mainStartup ["--help".toList] (fun _ => false) (Except.error ())
      = MainOutcome.exited 0 := by
  decide

/-- Claim C10, amended: an argument whose first two characters are two
hyphens and which is none of the three known flags is silently discarded,
and an argument not beginning with two hyphens, other than -h and -v, is
collected as a file, in both cases EXCEPT when the argument is consumed as
the value of an immediately preceding model flag: that consumed token is
looked up in the model table instead, continuing on success and exiting
with an error on failure, whatever shape the token has. -/
theorem parseArgsLoop_token_handling
    (arg : Txt) (rest : List Txt) (opts : Options) (files : List Txt) :
    (startsWithDashDash arg = true →
      arg ≠ "--help".toList → arg ≠ "--version".toList → arg ≠ "--model".toList →
      parseArgsLoop (arg :: rest) opts files = parseArgsLoop rest opts files)
    ∧ (startsWithDashDash arg = false →
      arg ≠ "-h".toList → arg ≠ "-v".toList →
      parseArgsLoop (arg :: rest) opts files = parseArgsLoop rest opts (files ++ [arg]))
    ∧ (∀ m rest2, arg = "--model".toList → rest = m :: rest2 →
      parseArgsLoop (arg :: rest) opts files
        = if isModelName m then parseArgsLoop rest2 { opts with model := m } files
          else Except.error ()) := by
  refine ⟨?_, ?_, ?_⟩
  · intro hdd h1 h2 h3
    have hne1 : ¬(arg = "--help".toList ∨ arg = "-h".toList) := by
      rintro (h | h)
      · exact h1 h
      · rw [h] at hdd; exact absurd hdd (by decide)
    have hne2 : ¬(arg = "--version".toList ∨ arg = "-v".toList) := by
      rintro (h | h)
      · exact h2 h
      · rw [h] at hdd; exact absurd hdd (by decide)
    simp at hne1 hne2 h3
    rw [parseArgsLoop.eq_def]
    simp [hne1, hne2, h3, hdd]
  · intro hdd h1 h2
    have hne1 : ¬(arg = "--help".toList ∨ arg = "-h".toList) := by
      rintro (h | h)
      · rw [h] at hdd; exact absurd hdd (by decide)
      · exact h1 h
    have hne2 : ¬(arg = "--version".toList ∨ arg = "-v".toList) := by
      rintro (h | h)
      · rw [h] at hdd; exact absurd hdd (by decide)
      · exact h2 h
    have hne3 : arg ≠ "--model".toList := by
      intro h; rw [h] at hdd; exact absurd hdd (by decide)
    simp at hne1 hne2 hne3
    rw [parseArgsLoop.eq_def]
    simp [hne1, hne2, hne3, hdd]
  · rintro m rest2 rfl rfl
    rw [parseArgsLoop.eq_def]
    simp

/-- Claim C10 witness: an unknown two-hyphen token is discarded and a plain
token is collected as a file. -/
theorem parseArgsLoop_token_handling_witness :
    parseArgsLoop ["--foo".toList, "a".toList] defaultOptions []
      = parseArgsLoop ["a".toList] defaultOptions []
    ∧ parseArgsLoop ["a".toList] defaultOptions []
      = parseArgsLoop [] defaultOptions ([] ++ ["a".toList]) := by
  constructor
  · exact (parseArgsLoop_token_handling "--foo".toList ["a".toList] defaultOptions []).1
      (by decide) (by decide) (by decide) (by decide)
  · exact (parseArgsLoop_token_handling "a".toList [] defaultOptions []).2.1
      (by decide) (by decide) (by decide)

/-- Claim C10 counterexample: the token after a model flag, here a valid
model name that neither begins with two hyphens nor is -h or -v, is consumed
as the model value and never collected as a file; and a two-hyphen token in
that position is not silently discarded but makes parsing exit with an
error. This refutes the claim as a statement about every token of every
argument list. -/
theorem parseArgs_model_value_counterexample :
    parseArgs ["--model".toList, "sonnet-4.5".toList, "a".toList, "b".toList]
      = Except.ok ({ model := "sonnet-4.5".toList, help := false, version := false },
          ["a".toList, "b".toList])
    ∧ ¬ ("sonnet-4.5".toList ∈ (["a".toList, "b".toList] : List Txt))
    ∧ parseArgs ["--model".toList, "--foo".toList] = Except.error () := by
  decide
